import Mathlib

/-!
# Key generation over a pluggable suite (`signing/keyGenerator.go`)

A shallow embedding of `keyGenerator`, `Pair`, `NewKeyGenerator`, `GeneratePair`,
`PrivateKeyFromByteArray`, `PublicKeyFromByteArray`, `Suite` and `NewKeyPair`.

Modelling conventions

* The `crypto.Suite` interface (and the `crypto.Scalar` / `crypto.Point` methods the file
  calls) is declared outside this file, so it is a parameter: a record of functions over
  abstract carrier types `S` (scalars), `P` (points), `R` (random streams) and `E`
  (errors produced by the suite).
* A Go `[]byte` is `Option (List Byte)`: `none` is the nil slice, `some []` is an empty
  slice that is not nil.
* A Go result tuple `(v, err)` is a Lean pair whose second component is `Option`:
  `none` is the nil error.  A returned pointer or interface that may be nil is an `Option`.
* Every function returns, next to its value, the list of suite calls it made, in order.
* A method with the pointer receiver `kg *keyGenerator` also returns the receiver as it
  is after the call.
* `panic` is an outcome of its own, distinct from every returned value.
-/

namespace Signing

/-- One octet of a Go byte slice. -/
abbrev Byte := Fin 256

/-- Go `[]byte`; `none` is the nil slice. -/
abbrev Bytes := Option (List Byte)

/-- The calls the code makes on the suite and on the scalars and points it hands out. -/
inductive Call where
  | RandomStream
  | CreateScalar
  | CreatePoint
  | CreateKey
  | Pick
  | Mul
  | ScalarUnmarshalBinary
  | PointUnmarshalBinary
  deriving DecidableEq, Repr

/-- Go `error` values seen by this file: those it builds itself with `errors.New`, and
those handed back by the suite, which it passes on untouched. -/
inductive Error (E : Type) where
  | errorsNew (msg : String)
  | collaborator (e : E)
  deriving DecidableEq, Repr

/-- The `crypto.Suite` capability set used by the file.  `CreateKey` is present exactly
when the suite value also implements `crypto.Generator` (the type assertion
`suite.(crypto.Generator)` succeeds).  `Pick`, `Mul` and the two `UnmarshalBinary`
take the receiver as first argument; `UnmarshalBinary` returns the receiver as it is
left by the call together with the error.  The two `MarshalBinary` functions are the
serialisation of the same interfaces; the file never calls them. -/
structure Suite (S P R E : Type) where
  RandomStream : R
  CreateScalar : S
  CreatePoint : P
  CreateKey : Option (R → S)
  Pick : S → R → S × Option E
  Mul : P → S → P × Option E
  ScalarUnmarshalBinary : S → Bytes → S × Option E
  PointUnmarshalBinary : P → Bytes → P × Option E
  ScalarMarshalBinary : S → Bytes × Option E
  PointMarshalBinary : P → Bytes × Option E

/-- The struct `keyGenerator`. -/
structure keyGenerator (S P R E : Type) where
  suite : Suite S P R E

/-- The struct `Pair`: a public/private keypair. -/
structure Pair (S P : Type) where
  Public : P
  Private : S

/-- The struct `privateKey` built by the file: `{suite, sk}`. -/
structure privateKey (S P R E : Type) where
  suite : Suite S P R E
  sk : S

/-- The struct `publicKey` built by the file: `{suite, pk}`. -/
structure publicKey (S P R E : Type) where
  suite : Suite S P R E
  pk : P

/-- How a Go call ends: it returns, or it panics with a message. -/
inductive Outcome (α : Type) where
  | returned (a : α)
  | panicked (msg : String)

/-- Value of a free function together with the suite calls it made. -/
structure Traced (α : Type) where
  val : α
  calls : List Call

/-- Value of a method with receiver type `K`, the receiver after the call, and the suite
calls made. -/
structure MethodResult (K α : Type) where
  val : α
  recv : K
  calls : List Call

variable {S P R E : Type}

/-- `NewKeyGenerator`: a new key generator with the given suite. -/
def NewKeyGenerator (suite : Suite S P R E) : keyGenerator S P R E :=
  { suite := suite }

/-- `NewKeyPair`: `(*Pair, error)`.  The random stream is taken first; the capability
check selects `CreateKey` or `CreateScalar().Pick`; a `Pick` error returns at once;
then `CreatePoint().Mul(p.Private)`. -/
def NewKeyPair (suite : Suite S P R E) :
    Traced (Option (Pair S P) × Option (Error E)) :=
  let random := suite.RandomStream
  match suite.CreateKey with
  | some CreateKey =>
    let Private := CreateKey random
    match suite.Mul suite.CreatePoint Private with
    | (_, some err) =>
      { val := (none, some (Error.collaborator err)),
        calls := [Call.RandomStream, Call.CreateKey, Call.CreatePoint, Call.Mul] }
    | (pubKey, none) =>
      { val := (some { Public := pubKey, Private := Private }, none),
        calls := [Call.RandomStream, Call.CreateKey, Call.CreatePoint, Call.Mul] }
  | none =>
    match suite.Pick suite.CreateScalar random with
    | (_, some err) =>
      { val := (none, some (Error.collaborator err)),
        calls := [Call.RandomStream, Call.CreateScalar, Call.Pick] }
    | (privateKey, none) =>
      match suite.Mul suite.CreatePoint privateKey with
      | (_, some err) =>
        { val := (none, some (Error.collaborator err)),
          calls := [Call.RandomStream, Call.CreateScalar, Call.Pick,
                    Call.CreatePoint, Call.Mul] }
      | (pubKey, none) =>
        { val := (some { Public := pubKey, Private := privateKey }, none),
          calls := [Call.RandomStream, Call.CreateScalar, Call.Pick,
                    Call.CreatePoint, Call.Mul] }

/-- The method `GeneratePair`: `(crypto.PrivateKey, crypto.PublicKey)`, no error result.
A non-nil error from `NewKeyPair` panics.  The last arm is the dereference of a nil
`keyPair` under a nil error. -/
def GeneratePair (kg : keyGenerator S P R E) :
    MethodResult (keyGenerator S P R E)
      (Outcome (privateKey S P R E × publicKey S P R E)) :=
  let r := NewKeyPair kg.suite
  match r.val with
  | (_, some _) =>
    { val := Outcome.panicked "unable to generate private/public keys",
      recv := kg, calls := r.calls }
  | (some keyPair, none) =>
    { val := Outcome.returned
        ({ suite := kg.suite, sk := keyPair.Private },
         { suite := kg.suite, pk := keyPair.Public }),
      recv := kg, calls := r.calls }
  | (none, none) =>
    { val := Outcome.panicked
        "runtime error: invalid memory address or nil pointer dereference",
      recv := kg, calls := r.calls }

/-- The method `PrivateKeyFromByteArray`: `(crypto.PrivateKey, error)`. -/
def PrivateKeyFromByteArray (kg : keyGenerator S P R E) (b : Bytes) :
    MethodResult (keyGenerator S P R E)
      (Option (privateKey S P R E) × Option (Error E)) :=
  match b with
  | none =>
    { val := (none, some (Error.errorsNew "cannot create private key from nil byte array")),
      recv := kg, calls := [] }
  | some _ =>
    let sc := kg.suite.CreateScalar
    match kg.suite.ScalarUnmarshalBinary sc b with
    | (_, some err) =>
      { val := (none, some (Error.collaborator err)),
        recv := kg, calls := [Call.CreateScalar, Call.ScalarUnmarshalBinary] }
    | (sc, none) =>
      { val := (some { suite := kg.suite, sk := sc }, none),
        recv := kg, calls := [Call.CreateScalar, Call.ScalarUnmarshalBinary] }

/-- The method `PublicKeyFromByteArray`: `(crypto.PublicKey, error)`. -/
def PublicKeyFromByteArray (kg : keyGenerator S P R E) (b : Bytes) :
    MethodResult (keyGenerator S P R E)
      (Option (publicKey S P R E) × Option (Error E)) :=
  match b with
  | none =>
    { val := (none, some (Error.errorsNew "cannot create public key from nil byte array")),
      recv := kg, calls := [] }
  | some _ =>
    let point := kg.suite.CreatePoint
    match kg.suite.PointUnmarshalBinary point b with
    | (_, some err) =>
      { val := (none, some (Error.collaborator err)),
        recv := kg, calls := [Call.CreatePoint, Call.PointUnmarshalBinary] }
    | (point, none) =>
      { val := (some { suite := kg.suite, pk := point }, none),
        recv := kg, calls := [Call.CreatePoint, Call.PointUnmarshalBinary] }

/-- The method `Suite`: the suite used for this key generator. -/
def keyGenerator.Suite (kg : keyGenerator S P R E) :
    MethodResult (keyGenerator S P R E) (Suite S P R E) :=
  { val := kg.suite, recv := kg, calls := [] }

/-! ## Concrete suites used to evaluate the code -/

/-- A small suite over the integers modulo 7: scalars and points are residues, the base
point handed out by `CreatePoint` is 3, `Mul` multiplies modulo 7 and rejects the zero
scalar, `Pick` reduces the stream value modulo 7 and fails on an exhausted stream
(value 0), and the encoding is one octet below 7.  `random` is the value of the
random stream; `accelerated` says whether the suite implements `crypto.Generator`,
in which case `CreateKey` maps the stream value into `1..6`. -/
def zmod7Suite (random : Nat) (accelerated : Bool) : Suite (Fin 7) (Fin 7) Nat String where
  RandomStream := random
  CreateScalar := 0
  CreatePoint := 3
  CreateKey :=
    if accelerated then some (fun r => ⟨r % 6 + 1, Nat.succ_lt_succ (Nat.mod_lt r (by decide))⟩)
    else none
  Pick := fun sc r =>
    if r = 0 then (sc, some "entropy exhausted")
    else (⟨r % 7, Nat.mod_lt r (by decide)⟩, none)
  Mul := fun p s => if s = 0 then (p, some "zero scalar") else (p * s, none)
  ScalarUnmarshalBinary := fun sc b =>
    match b with
    | some [x] => if h : x.val < 7 then (⟨x.val, h⟩, none) else (sc, some "scalar out of range")
    | _ => (sc, some "wrong scalar size")
  PointUnmarshalBinary := fun p b =>
    match b with
    | some [x] => if h : x.val < 7 then (⟨x.val, h⟩, none) else (p, some "point out of range")
    | _ => (p, some "wrong point size")
  ScalarMarshalBinary := fun s => (some [⟨s.val, Nat.lt_trans s.isLt (by decide)⟩], none)
  PointMarshalBinary := fun p => (some [⟨p.val, Nat.lt_trans p.isLt (by decide)⟩], none)

/-- The suite of the one-element group: there is one scalar and one point, and their
encoding has length zero.  `MarshalBinary` returns the nil slice (nothing was
appended to it) with a nil error, and `UnmarshalBinary` accepts exactly the buffers of
length zero, nil or not. -/
def trivialSuite : Suite Unit Unit Nat String where
  RandomStream := 0
  CreateScalar := ()
  CreatePoint := ()
  CreateKey := none
  Pick := fun _ _ => ((), none)
  Mul := fun _ _ => ((), none)
  ScalarUnmarshalBinary := fun sc b =>
    match b with
    | none => ((), none)
    | some [] => ((), none)
    | some (_ :: _) => (sc, some "wrong scalar size")
  PointUnmarshalBinary := fun p b =>
    match b with
    | none => ((), none)
    | some [] => ((), none)
    | some (_ :: _) => (p, some "wrong point size")
  ScalarMarshalBinary := fun _ => (none, none)
  PointMarshalBinary := fun _ => (none, none)

/-- The accelerated modulo-7 suite with a `Mul` that always returns an error. -/
def brokenMulSuite (random : Nat) : Suite (Fin 7) (Fin 7) Nat String :=
  { zmod7Suite random true with Mul := fun p _ => (p, some "point arithmetic failed") }

/-! ## Sequences of method calls on one generator -/

/-- A call of one of the four methods of `keyGenerator`. -/
inductive Op where
  | GeneratePair
  | PrivateKeyFromByteArray (b : Bytes)
  | PublicKeyFromByteArray (b : Bytes)
  | Suite

/-- The receiver after one method call. -/
def Op.after (kg : keyGenerator S P R E) : Op → keyGenerator S P R E
  | Op.GeneratePair => (Signing.GeneratePair kg).recv
  | Op.PrivateKeyFromByteArray b => (Signing.PrivateKeyFromByteArray kg b).recv
  | Op.PublicKeyFromByteArray b => (Signing.PublicKeyFromByteArray kg b).recv
  | Op.Suite => (Signing.keyGenerator.Suite kg).recv

/-- The receiver after a sequence of method calls, made one after the other. -/
def afterOps (kg : keyGenerator S P R E) (ops : List Op) : keyGenerator S P R E :=
  ops.foldl Op.after kg

/-! ## Vocabulary of the round-trip property -/

/-- The scalar `UnmarshalBinary` of the suite, run on a scalar fresh from `CreateScalar`,
inverts its scalar `MarshalBinary`: whatever buffer a scalar serialises to without
error is read back, without error, as that scalar. -/
def ScalarUnmarshalInvertsMarshal (suite : Suite S P R E) : Prop :=
  ∀ (s : S) (b : Bytes), suite.ScalarMarshalBinary s = (b, none) →
    suite.ScalarUnmarshalBinary suite.CreateScalar b = (s, none)

/-- The same for points, read into a point fresh from `CreatePoint`. -/
def PointUnmarshalInvertsMarshal (suite : Suite S P R E) : Prop :=
  ∀ (q : P) (b : Bytes), suite.PointMarshalBinary q = (b, none) →
    suite.PointUnmarshalBinary suite.CreatePoint b = (q, none)

/-! ## Shared lemmas -/

/-- `NewKeyPair` on the accelerated path, written out. -/
theorem NewKeyPair_accelerated (suite : Suite S P R E) (ck : R → S)
    (hck : suite.CreateKey = some ck) :
    NewKeyPair suite =
      match suite.Mul suite.CreatePoint (ck suite.RandomStream) with
      | (_, some err) =>
        { val := (none, some (Error.collaborator err)),
          calls := [Call.RandomStream, Call.CreateKey, Call.CreatePoint, Call.Mul] }
      | (pubKey, none) =>
        { val := (some { Public := pubKey, Private := ck suite.RandomStream }, none),
          calls := [Call.RandomStream, Call.CreateKey, Call.CreatePoint, Call.Mul] } := by
  unfold NewKeyPair
  simp only [hck]

/-- `NewKeyPair` returns a pair exactly when it returns a nil error. -/
theorem NewKeyPair_pair_or_error (suite : Suite S P R E) :
    (∃ p, (NewKeyPair suite).val = (some p, none)) ∨
    (∃ e, (NewKeyPair suite).val = (none, some (Error.collaborator e))) := by
  unfold NewKeyPair
  dsimp only
  split
  · split
    · exact Or.inr ⟨_, rfl⟩
    · exact Or.inl ⟨_, rfl⟩
  · split
    · exact Or.inr ⟨_, rfl⟩
    · split
      · exact Or.inr ⟨_, rfl⟩
      · exact Or.inl ⟨_, rfl⟩

/-- A pair returned by `NewKeyPair` has its public point produced by `Mul` of the
point from `CreatePoint` with the private scalar, and that `Mul` returned a nil error. -/
theorem NewKeyPair_some_mul (suite : Suite S P R E) (p : Pair S P)
    (h : (NewKeyPair suite).val.1 = some p) :
    suite.Mul suite.CreatePoint p.Private = (p.Public, none) := by
  unfold NewKeyPair at h
  dsimp only at h
  split at h
  · split at h
    · simp at h
    · next pubKey hm =>
      simp only [Option.some.injEq] at h
      subst h
      exact hm
  · split at h
    · simp at h
    · split at h
      · simp at h
      · next pubKey hm =>
        simp only [Option.some.injEq] at h
        subst h
        exact hm

/-- `GeneratePair` makes exactly the suite calls of `NewKeyPair`. -/
theorem GeneratePair_calls (kg : keyGenerator S P R E) :
    (GeneratePair kg).calls = (NewKeyPair kg.suite).calls := by
  unfold GeneratePair
  dsimp only
  split <;> rfl

/-- `GeneratePair` on a successful `NewKeyPair`. -/
theorem GeneratePair_of_pair (kg : keyGenerator S P R E) (p : Pair S P)
    (h : (NewKeyPair kg.suite).val = (some p, none)) :
    (GeneratePair kg).val =
      Outcome.returned
        ({ suite := kg.suite, sk := p.Private }, { suite := kg.suite, pk := p.Public }) := by
  unfold GeneratePair
  simp only [h]

/-- `GeneratePair` on a failed `NewKeyPair`. -/
theorem GeneratePair_of_error (kg : keyGenerator S P R E) (pr : Option (Pair S P))
    (e : Error E) (h : (NewKeyPair kg.suite).val = (pr, some e)) :
    (GeneratePair kg).val = Outcome.panicked "unable to generate private/public keys" := by
  unfold GeneratePair
  simp only [h]

/-- `NewKeyPair` on the generic path when `Pick` fails. -/
theorem NewKeyPair_pick_error (suite : Suite S P R E) (hck : suite.CreateKey = none)
    (sc : S) (e : E)
    (hp : suite.Pick suite.CreateScalar suite.RandomStream = (sc, some e)) :
    NewKeyPair suite =
      { val := (none, some (Error.collaborator e)),
        calls := [Call.RandomStream, Call.CreateScalar, Call.Pick] } := by
  unfold NewKeyPair
  simp only [hck, hp]

/-- `NewKeyPair` on the generic path when `Pick` succeeds. -/
theorem NewKeyPair_pick_ok (suite : Suite S P R E) (hck : suite.CreateKey = none)
    (sk : S) (hp : suite.Pick suite.CreateScalar suite.RandomStream = (sk, none)) :
    NewKeyPair suite =
      match suite.Mul suite.CreatePoint sk with
      | (_, some err) =>
        { val := (none, some (Error.collaborator err)),
          calls := [Call.RandomStream, Call.CreateScalar, Call.Pick,
                    Call.CreatePoint, Call.Mul] }
      | (pubKey, none) =>
        { val := (some { Public := pubKey, Private := sk }, none),
          calls := [Call.RandomStream, Call.CreateScalar, Call.Pick,
                    Call.CreatePoint, Call.Mul] } := by
  unfold NewKeyPair
  simp only [hck, hp]

/-- The modulo-7 suite reads back every scalar it serialises. -/
theorem zmod7Suite_scalar_round_trip (random : Nat) (accelerated : Bool) :
    ScalarUnmarshalInvertsMarshal (zmod7Suite random accelerated) := by
  intro s b h
  simp only [zmod7Suite, Prod.mk.injEq, and_true] at h
  subst h
  simp [zmod7Suite]

/-- The modulo-7 suite reads back every point it serialises. -/
theorem zmod7Suite_point_round_trip (random : Nat) (accelerated : Bool) :
    PointUnmarshalInvertsMarshal (zmod7Suite random accelerated) := by
  intro q b h
  simp only [zmod7Suite, Prod.mk.injEq, and_true] at h
  subst h
  simp [zmod7Suite]

/-- The one-element suite reads back, from the nil slice it serialises to, the only
scalar and the only point there are. -/
theorem trivialSuite_round_trip :
    ScalarUnmarshalInvertsMarshal trivialSuite ∧ PointUnmarshalInvertsMarshal trivialSuite := by
  constructor
  · intro s b h
    simp only [trivialSuite, Prod.mk.injEq, and_true] at h
    subst h
    rfl
  · intro q b h
    simp only [trivialSuite, Prod.mk.injEq, and_true] at h
    subst h
    rfl

/-! ## The claims -/

/-- C1: whenever `NewKeyPair` returns a pair without error, the `Public` of the pair is the
point returned (with a nil error) by `CreatePoint().Mul` applied to the `Private` of
the pair; and whenever `GeneratePair` returns handles, the point of the public handle
is that `Mul` of the scalar of the private handle.  The suite is arbitrary, so the statement
covers the `CreateKey` path and the `Pick` path. -/
theorem generated_public_is_base_mul_private (suite : Suite S P R E) :
    (∀ p : Pair S P, (NewKeyPair suite).val = (some p, none) →
      suite.Mul suite.CreatePoint p.Private = (p.Public, none)) ∧
    (∀ (sk : privateKey S P R E) (pk : publicKey S P R E),
      (GeneratePair (NewKeyGenerator suite)).val = Outcome.returned (sk, pk) →
      suite.Mul suite.CreatePoint sk.sk = (pk.pk, none)) := by
  refine ⟨fun p h => NewKeyPair_some_mul suite p (by rw [h]), ?_⟩
  intro sk pk h
  unfold GeneratePair NewKeyGenerator at h
  simp only at h
  split at h
  · simp at h
  · next keyPair hv =>
    simp only [Outcome.returned.injEq, Prod.mk.injEq] at h
    obtain ⟨h1, h2⟩ := h
    subst h1 h2
    exact NewKeyPair_some_mul suite keyPair (by rw [hv])
  · simp at h

/-- Witness for C1 on both paths: the accelerated suite with stream value 5 yields
private 6 and public 3 * 6 mod 7 = 4; the generic suite yields private 5 and public 1,
which are also the values in the handles returned by `GeneratePair`. -/
theorem generated_public_is_base_mul_private_witness :
    ((NewKeyPair (zmod7Suite 5 true)).val = (some { Public := 4, Private := 6 }, none) ∧
      (zmod7Suite 5 true).Mul (zmod7Suite 5 true).CreatePoint 6 = (4, none)) ∧
    ((GeneratePair (NewKeyGenerator (zmod7Suite 5 false))).val =
        Outcome.returned
          ({ suite := zmod7Suite 5 false, sk := 5 }, { suite := zmod7Suite 5 false, pk := 1 }) ∧
      (zmod7Suite 5 false).Mul (zmod7Suite 5 false).CreatePoint 5 = (1, none)) :=
  ⟨⟨rfl, (generated_public_is_base_mul_private (zmod7Suite 5 true)).1
      { Public := 4, Private := 6 } rfl⟩,
   ⟨rfl, (generated_public_is_base_mul_private (zmod7Suite 5 false)).2
      { suite := zmod7Suite 5 false, sk := 5 } { suite := zmod7Suite 5 false, pk := 1 } rfl⟩⟩

/-- C2: on the nil slice both reconstruction methods return a nil handle together
with the error built by `errors.New`, and make no call on the suite: the trace is
empty, so neither `CreateScalar`, `CreatePoint` nor `UnmarshalBinary` runs. -/
theorem from_nil_bytes_errors_before_suite (kg : keyGenerator S P R E) :
    ((PrivateKeyFromByteArray kg none).val =
        (none, some (Error.errorsNew "cannot create private key from nil byte array")) ∧
      (PrivateKeyFromByteArray kg none).calls = []) ∧
    ((PublicKeyFromByteArray kg none).val =
        (none, some (Error.errorsNew "cannot create public key from nil byte array")) ∧
      (PublicKeyFromByteArray kg none).calls = []) :=
  ⟨⟨rfl, rfl⟩, ⟨rfl, rfl⟩⟩

/-- Counterexample to C3 as stated.  With the suite of the one-element group, whose
`UnmarshalBinary` accepts a buffer of length zero, the empty non-nil buffer does not
fail at all: both methods call `UnmarshalBinary` and return a handle, a result that
differs from the one for the nil buffer.  With the modulo-7 suite, whose
`UnmarshalBinary` rejects it, the error returned is the one of the suite, not the one built
for the nil buffer. -/
theorem empty_bytes_same_as_nil_counterexample :
    ((PrivateKeyFromByteArray (NewKeyGenerator trivialSuite) (some [])).val =
        (some { suite := trivialSuite, sk := () }, none) ∧
      (PrivateKeyFromByteArray (NewKeyGenerator trivialSuite) (some [])).calls =
        [Call.CreateScalar, Call.ScalarUnmarshalBinary] ∧
      (PrivateKeyFromByteArray (NewKeyGenerator trivialSuite) (some [])).val ≠
        (PrivateKeyFromByteArray (NewKeyGenerator trivialSuite) none).val) ∧
    ((PublicKeyFromByteArray (NewKeyGenerator trivialSuite) (some [])).val =
        (some { suite := trivialSuite, pk := () }, none) ∧
      (PublicKeyFromByteArray (NewKeyGenerator trivialSuite) (some [])).calls =
        [Call.CreatePoint, Call.PointUnmarshalBinary] ∧
      (PublicKeyFromByteArray (NewKeyGenerator trivialSuite) (some [])).val ≠
        (PublicKeyFromByteArray (NewKeyGenerator trivialSuite) none).val) ∧
    ((PrivateKeyFromByteArray (NewKeyGenerator (zmod7Suite 5 false)) (some [])).val =
        (none, some (Error.collaborator "wrong scalar size")) ∧
      (PrivateKeyFromByteArray (NewKeyGenerator (zmod7Suite 5 false)) (some [])).calls =
        [Call.CreateScalar, Call.ScalarUnmarshalBinary]) := by
  refine ⟨⟨rfl, rfl, ?_⟩, ⟨rfl, rfl, ?_⟩, ⟨rfl, rfl⟩⟩
  · intro h
    have h1 := congrArg (fun v => v.2.isSome) h
    exact Bool.noConfusion h1
  · intro h
    have h1 := congrArg (fun v => v.2.isSome) h
    exact Bool.noConfusion h1

/-- C3, amended: an empty buffer that is not nil passes the nil check.  Both methods
then make exactly two calls, `CreateScalar` (`CreatePoint`) and the
`UnmarshalBinary` of the suite on that buffer, and the result is the one
`UnmarshalBinary` decides: its error and no handle when it fails, a handle bound to
the suite of the generator and wrapping the unmarshalled value when it succeeds. -/
theorem empty_bytes_decided_by_unmarshal (kg : keyGenerator S P R E) :
    ((PrivateKeyFromByteArray kg (some [])).calls =
        [Call.CreateScalar, Call.ScalarUnmarshalBinary] ∧
      (∀ (sc : S) (e : E),
        kg.suite.ScalarUnmarshalBinary kg.suite.CreateScalar (some []) = (sc, some e) →
        (PrivateKeyFromByteArray kg (some [])).val = (none, some (Error.collaborator e))) ∧
      (∀ sc : S,
        kg.suite.ScalarUnmarshalBinary kg.suite.CreateScalar (some []) = (sc, none) →
        (PrivateKeyFromByteArray kg (some [])).val =
          (some { suite := kg.suite, sk := sc }, none))) ∧
    ((PublicKeyFromByteArray kg (some [])).calls =
        [Call.CreatePoint, Call.PointUnmarshalBinary] ∧
      (∀ (q : P) (e : E),
        kg.suite.PointUnmarshalBinary kg.suite.CreatePoint (some []) = (q, some e) →
        (PublicKeyFromByteArray kg (some [])).val = (none, some (Error.collaborator e))) ∧
      (∀ q : P,
        kg.suite.PointUnmarshalBinary kg.suite.CreatePoint (some []) = (q, none) →
        (PublicKeyFromByteArray kg (some [])).val =
          (some { suite := kg.suite, pk := q }, none))) := by
  refine ⟨⟨?_, ?_, ?_⟩, ⟨?_, ?_, ?_⟩⟩
  · unfold PrivateKeyFromByteArray
    dsimp only
    split <;> rfl
  · intro sc e h
    unfold PrivateKeyFromByteArray
    simp only [h]
  · intro sc h
    unfold PrivateKeyFromByteArray
    simp only [h]
  · unfold PublicKeyFromByteArray
    dsimp only
    split <;> rfl
  · intro q e h
    unfold PublicKeyFromByteArray
    simp only [h]
  · intro q h
    unfold PublicKeyFromByteArray
    simp only [h]

/-- Witness for the amended C3: the modulo-7 suite rejects the empty buffer and the
private-key method returns the error of the suite; the one-element suite accepts it and
the public-key method returns a handle. -/
theorem empty_bytes_decided_by_unmarshal_witness :
    ((zmod7Suite 5 false).ScalarUnmarshalBinary (zmod7Suite 5 false).CreateScalar (some []) =
        (0, some "wrong scalar size") ∧
      (PrivateKeyFromByteArray (NewKeyGenerator (zmod7Suite 5 false)) (some [])).val =
        (none, some (Error.collaborator "wrong scalar size"))) ∧
    (trivialSuite.PointUnmarshalBinary trivialSuite.CreatePoint (some []) = ((), none) ∧
      (PublicKeyFromByteArray (NewKeyGenerator trivialSuite) (some [])).val =
        (some { suite := trivialSuite, pk := () }, none)) :=
  ⟨⟨rfl, (empty_bytes_decided_by_unmarshal (NewKeyGenerator (zmod7Suite 5 false))).1.2.1
      0 "wrong scalar size" rfl⟩,
   ⟨rfl, (empty_bytes_decided_by_unmarshal (NewKeyGenerator trivialSuite)).2.2.2 () rfl⟩⟩

/-- C4: for a buffer that is not nil and on which the scalar `UnmarshalBinary`
returns an error, `PrivateKeyFromByteArray` returns that same error and a nil handle,
whatever the scalar was left as; the same holds for `PublicKeyFromByteArray` and the
`UnmarshalBinary` of points. -/
theorem unmarshal_error_is_returned (kg : keyGenerator S P R E) (bs : List Byte) :
    (∀ (sc : S) (e : E),
      kg.suite.ScalarUnmarshalBinary kg.suite.CreateScalar (some bs) = (sc, some e) →
      (PrivateKeyFromByteArray kg (some bs)).val = (none, some (Error.collaborator e))) ∧
    (∀ (q : P) (e : E),
      kg.suite.PointUnmarshalBinary kg.suite.CreatePoint (some bs) = (q, some e) →
      (PublicKeyFromByteArray kg (some bs)).val = (none, some (Error.collaborator e))) := by
  refine ⟨?_, ?_⟩
  · intro sc e h
    unfold PrivateKeyFromByteArray
    simp only [h]
  · intro q e h
    unfold PublicKeyFromByteArray
    simp only [h]

/-- Witness for C4: the modulo-7 suite rejects the one-octet buffer 9 as out of range
and the two-octet buffer as of the wrong size. -/
theorem unmarshal_error_is_returned_witness :
    ((zmod7Suite 5 false).ScalarUnmarshalBinary (zmod7Suite 5 false).CreateScalar (some [9]) =
        (0, some "scalar out of range") ∧
      (PrivateKeyFromByteArray (NewKeyGenerator (zmod7Suite 5 false)) (some [9])).val =
        (none, some (Error.collaborator "scalar out of range"))) ∧
    ((zmod7Suite 5 false).PointUnmarshalBinary (zmod7Suite 5 false).CreatePoint (some [1, 2]) =
        (3, some "wrong point size") ∧
      (PublicKeyFromByteArray (NewKeyGenerator (zmod7Suite 5 false)) (some [1, 2])).val =
        (none, some (Error.collaborator "wrong point size"))) :=
  ⟨⟨rfl, (unmarshal_error_is_returned (NewKeyGenerator (zmod7Suite 5 false)) [9]).1
      0 "scalar out of range" rfl⟩,
   ⟨rfl, (unmarshal_error_is_returned (NewKeyGenerator (zmod7Suite 5 false)) [1, 2]).2
      3 "wrong point size" rfl⟩⟩

/-- Counterexample to C5 as stated.  The one-element suite reads back what it
serialises, and `NewKeyPair` on it returns a pair; its scalar and its point serialise
to the nil slice, and on the nil slice both reconstruction methods return an error
and no handle. -/
theorem round_trip_nil_serialisation_counterexample :
    (ScalarUnmarshalInvertsMarshal trivialSuite ∧
      PointUnmarshalInvertsMarshal trivialSuite) ∧
    (NewKeyPair trivialSuite).val = (some { Public := (), Private := () }, none) ∧
    (trivialSuite.ScalarMarshalBinary () = (none, none) ∧
      (PrivateKeyFromByteArray (NewKeyGenerator trivialSuite) none).val =
        (none, some (Error.errorsNew "cannot create private key from nil byte array"))) ∧
    (trivialSuite.PointMarshalBinary () = (none, none) ∧
      (PublicKeyFromByteArray (NewKeyGenerator trivialSuite) none).val =
        (none, some (Error.errorsNew "cannot create public key from nil byte array"))) :=
  ⟨trivialSuite_round_trip, rfl, ⟨rfl, rfl⟩, ⟨rfl, rfl⟩⟩

/-- C5, amended: let the pair `p` be returned by `NewKeyPair` on the suite of the
generator.  If the scalar `UnmarshalBinary` of the suite inverts its serialisation and `p.Private`
serialises without error to a buffer that is not nil, then `PrivateKeyFromByteArray`
on that buffer returns, with a nil error, the handle bound to the suite of the generator
whose scalar is `p.Private`.  Likewise for `p.Public` and `PublicKeyFromByteArray`. -/
theorem round_trip_of_generated_keys (kg : keyGenerator S P R E) (p : Pair S P)
    (_hgen : (NewKeyPair kg.suite).val = (some p, none)) :
    (ScalarUnmarshalInvertsMarshal kg.suite →
      ∀ bs : List Byte, kg.suite.ScalarMarshalBinary p.Private = (some bs, none) →
        (PrivateKeyFromByteArray kg (some bs)).val =
          (some { suite := kg.suite, sk := p.Private }, none)) ∧
    (PointUnmarshalInvertsMarshal kg.suite →
      ∀ bs : List Byte, kg.suite.PointMarshalBinary p.Public = (some bs, none) →
        (PublicKeyFromByteArray kg (some bs)).val =
          (some { suite := kg.suite, pk := p.Public }, none)) := by
  refine ⟨?_, ?_⟩
  · intro hinv bs hm
    have hu := hinv p.Private (some bs) hm
    unfold PrivateKeyFromByteArray
    simp only [hu]
  · intro hinv bs hm
    have hu := hinv p.Public (some bs) hm
    unfold PublicKeyFromByteArray
    simp only [hu]

/-- Witness for the amended C5: the modulo-7 suite with stream value 5 generates
private 5 and public 1, which serialise to the one-octet buffers 5 and 1. -/
theorem round_trip_of_generated_keys_witness :
    (NewKeyPair (zmod7Suite 5 false)).val = (some { Public := 1, Private := 5 }, none) ∧
    (ScalarUnmarshalInvertsMarshal (zmod7Suite 5 false) ∧
      (zmod7Suite 5 false).ScalarMarshalBinary 5 = (some [5], none) ∧
      (PrivateKeyFromByteArray (NewKeyGenerator (zmod7Suite 5 false)) (some [5])).val =
        (some { suite := zmod7Suite 5 false, sk := 5 }, none)) ∧
    (PointUnmarshalInvertsMarshal (zmod7Suite 5 false) ∧
      (zmod7Suite 5 false).PointMarshalBinary 1 = (some [1], none) ∧
      (PublicKeyFromByteArray (NewKeyGenerator (zmod7Suite 5 false)) (some [1])).val =
        (some { suite := zmod7Suite 5 false, pk := 1 }, none)) :=
  ⟨rfl,
   ⟨zmod7Suite_scalar_round_trip 5 false, rfl,
    (round_trip_of_generated_keys (NewKeyGenerator (zmod7Suite 5 false))
      { Public := 1, Private := 5 } rfl).1 (zmod7Suite_scalar_round_trip 5 false) [5] rfl⟩,
   ⟨zmod7Suite_point_round_trip 5 false, rfl,
    (round_trip_of_generated_keys (NewKeyGenerator (zmod7Suite 5 false))
      { Public := 1, Private := 5 } rfl).2 (zmod7Suite_point_round_trip 5 false) [1] rfl⟩⟩

/-- C6: on a suite that has `CreateKey`, `NewKeyPair` (and so `GeneratePair`) calls
`RandomStream`, `CreateKey`, `CreatePoint`, `Mul` and nothing else, so `Pick` is not
called, and the private scalar of a returned pair or handle is `CreateKey` applied
to the random stream of the suite.  On a suite that has not, `CreateKey` is not called,
`Pick` is, and the private scalar of a returned pair or handle is the scalar returned
by `CreateScalar().Pick` on the random stream. -/
theorem private_scalar_follows_capability (suite : Suite S P R E) :
    (∀ ck : R → S, suite.CreateKey = some ck →
      (NewKeyPair suite).calls =
        [Call.RandomStream, Call.CreateKey, Call.CreatePoint, Call.Mul] ∧
      (GeneratePair (NewKeyGenerator suite)).calls =
        [Call.RandomStream, Call.CreateKey, Call.CreatePoint, Call.Mul] ∧
      Call.Pick ∉ (GeneratePair (NewKeyGenerator suite)).calls ∧
      (∀ p : Pair S P, (NewKeyPair suite).val.1 = some p →
        p.Private = ck suite.RandomStream) ∧
      (∀ (sk : privateKey S P R E) (pk : publicKey S P R E),
        (GeneratePair (NewKeyGenerator suite)).val = Outcome.returned (sk, pk) →
        sk.sk = ck suite.RandomStream)) ∧
    (suite.CreateKey = none →
      Call.CreateKey ∉ (NewKeyPair suite).calls ∧
      Call.Pick ∈ (NewKeyPair suite).calls ∧
      (GeneratePair (NewKeyGenerator suite)).calls = (NewKeyPair suite).calls ∧
      (∀ p : Pair S P, (NewKeyPair suite).val.1 = some p →
        p.Private = (suite.Pick suite.CreateScalar suite.RandomStream).1) ∧
      (∀ (sk : privateKey S P R E) (pk : publicKey S P R E),
        (GeneratePair (NewKeyGenerator suite)).val = Outcome.returned (sk, pk) →
        sk.sk = (suite.Pick suite.CreateScalar suite.RandomStream).1)) := by
  have hgp : ∀ (x : S),
      (∀ p : Pair S P, (NewKeyPair suite).val.1 = some p → p.Private = x) →
      ∀ (sk : privateKey S P R E) (pk : publicKey S P R E),
        (GeneratePair (NewKeyGenerator suite)).val = Outcome.returned (sk, pk) →
        sk.sk = x := by
    intro x hx sk pk h
    rcases NewKeyPair_pair_or_error suite with ⟨p, hp⟩ | ⟨e, he⟩
    · rw [GeneratePair_of_pair (NewKeyGenerator suite) p hp] at h
      simp only [Outcome.returned.injEq, Prod.mk.injEq] at h
      rw [← h.1]
      exact hx p (by rw [hp])
    · rw [GeneratePair_of_error (NewKeyGenerator suite) none _ he] at h
      cases h
  refine ⟨?_, ?_⟩
  · intro ck hck
    have hcalls : (NewKeyPair suite).calls =
        [Call.RandomStream, Call.CreateKey, Call.CreatePoint, Call.Mul] := by
      rw [NewKeyPair_accelerated suite ck hck]
      split <;> rfl
    have hpriv : ∀ p : Pair S P, (NewKeyPair suite).val.1 = some p →
        p.Private = ck suite.RandomStream := by
      intro p hp
      rw [NewKeyPair_accelerated suite ck hck] at hp
      split at hp
      · simp at hp
      · simp only [Option.some.injEq] at hp
        rw [← hp]
    have hg : (GeneratePair (NewKeyGenerator suite)).calls =
        [Call.RandomStream, Call.CreateKey, Call.CreatePoint, Call.Mul] := by
      rw [GeneratePair_calls]
      exact hcalls
    refine ⟨hcalls, hg, ?_, hpriv, hgp _ hpriv⟩
    rw [hg]
    decide
  · intro hck
    rcases hpick : suite.Pick suite.CreateScalar suite.RandomStream with ⟨sc, _ | e⟩
    · have hnk := NewKeyPair_pick_ok suite hck sc hpick
      have hpriv : ∀ p : Pair S P, (NewKeyPair suite).val.1 = some p → p.Private = sc := by
        intro p hp
        rw [hnk] at hp
        split at hp
        · simp at hp
        · simp only [Option.some.injEq] at hp
          rw [← hp]
      have hcalls : (NewKeyPair suite).calls =
          [Call.RandomStream, Call.CreateScalar, Call.Pick, Call.CreatePoint, Call.Mul] := by
        rw [hnk]
        split <;> rfl
      refine ⟨?_, ?_, GeneratePair_calls _, hpriv, hgp _ hpriv⟩
      · rw [hcalls]
        decide
      · rw [hcalls]
        decide
    · have hnk := NewKeyPair_pick_error suite hck sc e hpick
      have hpriv : ∀ p : Pair S P, (NewKeyPair suite).val.1 = some p → p.Private = sc := by
        intro p hp
        rw [hnk] at hp
        simp at hp
      have hcalls : (NewKeyPair suite).calls =
          [Call.RandomStream, Call.CreateScalar, Call.Pick] := by
        rw [hnk]
      refine ⟨?_, ?_, GeneratePair_calls _, hpriv, hgp _ hpriv⟩
      · rw [hcalls]
        decide
      · rw [hcalls]
        decide

/-- Witness for C6: with stream value 5 the accelerated modulo-7 suite yields the
private scalar `CreateKey 5 = 6`, and the generic one yields `Pick 5 = 5`. -/
theorem private_scalar_follows_capability_witness :
    ((NewKeyPair (zmod7Suite 5 true)).val.1 = some { Public := 4, Private := 6 } ∧
      Call.Pick ∉ (GeneratePair (NewKeyGenerator (zmod7Suite 5 true))).calls ∧
      (6 : Fin 7) = ⟨5 % 6 + 1, by decide⟩) ∧
    ((zmod7Suite 5 false).CreateKey = none ∧
      (NewKeyPair (zmod7Suite 5 false)).val.1 = some { Public := 1, Private := 5 } ∧
      (5 : Fin 7) =
        ((zmod7Suite 5 false).Pick (zmod7Suite 5 false).CreateScalar
          (zmod7Suite 5 false).RandomStream).1) :=
  ⟨⟨rfl,
    ((private_scalar_follows_capability (zmod7Suite 5 true)).1 _ rfl).2.2.1,
    ((private_scalar_follows_capability (zmod7Suite 5 true)).1 _ rfl).2.2.2.1
      { Public := 4, Private := 6 } rfl⟩,
   ⟨rfl, rfl,
    ((private_scalar_follows_capability (zmod7Suite 5 false)).2 rfl).2.2.2.1
      { Public := 1, Private := 5 } rfl⟩⟩

/-- Counterexample to C7 as stated.  On the generic modulo-7 suite with an exhausted
stream `Pick` returns an error, and with stream value 7 `Pick` returns the zero
scalar, on which `Mul` returns an error.  In both runs `GeneratePair` does not return
at all, with or without an error: it panics. -/
theorem generate_pair_error_result_counterexample :
    ((zmod7Suite 0 false).Pick (zmod7Suite 0 false).CreateScalar
        (zmod7Suite 0 false).RandomStream = (0, some "entropy exhausted") ∧
      (GeneratePair (NewKeyGenerator (zmod7Suite 0 false))).val =
        Outcome.panicked "unable to generate private/public keys") ∧
    ((zmod7Suite 7 false).Pick (zmod7Suite 7 false).CreateScalar
        (zmod7Suite 7 false).RandomStream = (0, none) ∧
      (zmod7Suite 7 false).Mul (zmod7Suite 7 false).CreatePoint 0 = (3, some "zero scalar") ∧
      (GeneratePair (NewKeyGenerator (zmod7Suite 7 false))).val =
        Outcome.panicked "unable to generate private/public keys") :=
  ⟨⟨rfl, rfl⟩, ⟨rfl, rfl, rfl⟩⟩

/-- C7, amended: when `Pick` returns an error (generic path), or the `Mul` of the
chosen private scalar returns an error (either path), `GeneratePair` panics with the
message "unable to generate private/public keys"; it has no error result.  Nothing is
retried: the suite calls made are the ones up to the failing call, each once. -/
theorem generate_pair_panics_on_failure (kg : keyGenerator S P R E) :
    (kg.suite.CreateKey = none →
      ∀ (sc : S) (e : E),
        kg.suite.Pick kg.suite.CreateScalar kg.suite.RandomStream = (sc, some e) →
        (GeneratePair kg).val = Outcome.panicked "unable to generate private/public keys" ∧
        (GeneratePair kg).calls = [Call.RandomStream, Call.CreateScalar, Call.Pick]) ∧
    (kg.suite.CreateKey = none →
      ∀ (sk : S) (q : P) (e : E),
        kg.suite.Pick kg.suite.CreateScalar kg.suite.RandomStream = (sk, none) →
        kg.suite.Mul kg.suite.CreatePoint sk = (q, some e) →
        (GeneratePair kg).val = Outcome.panicked "unable to generate private/public keys" ∧
        (GeneratePair kg).calls =
          [Call.RandomStream, Call.CreateScalar, Call.Pick, Call.CreatePoint, Call.Mul]) ∧
    (∀ ck : R → S, kg.suite.CreateKey = some ck →
      ∀ (q : P) (e : E),
        kg.suite.Mul kg.suite.CreatePoint (ck kg.suite.RandomStream) = (q, some e) →
        (GeneratePair kg).val = Outcome.panicked "unable to generate private/public keys" ∧
        (GeneratePair kg).calls =
          [Call.RandomStream, Call.CreateKey, Call.CreatePoint, Call.Mul]) := by
  refine ⟨?_, ?_, ?_⟩
  · intro hck sc e hp
    have hnk := NewKeyPair_pick_error kg.suite hck sc e hp
    refine ⟨GeneratePair_of_error kg none (Error.collaborator e) (by rw [hnk]), ?_⟩
    rw [GeneratePair_calls, hnk]
  · intro hck sk q e hp hm
    have hnk := NewKeyPair_pick_ok kg.suite hck sk hp
    simp only [hm] at hnk
    refine ⟨GeneratePair_of_error kg none (Error.collaborator e) (by rw [hnk]), ?_⟩
    rw [GeneratePair_calls, hnk]
  · intro ck hck q e hm
    have hnk := NewKeyPair_accelerated kg.suite ck hck
    simp only [hm] at hnk
    refine ⟨GeneratePair_of_error kg none (Error.collaborator e) (by rw [hnk]), ?_⟩
    rw [GeneratePair_calls, hnk]

/-- Witness for the amended C7, one run for each of the three failures: `Pick` on an
exhausted stream, `Mul` on the zero scalar picked from stream value 7, and `Mul`
failing after `CreateKey` on a suite whose `Mul` always fails. -/
theorem generate_pair_panics_on_failure_witness :
    ((GeneratePair (NewKeyGenerator (zmod7Suite 0 false))).val =
        Outcome.panicked "unable to generate private/public keys" ∧
      (GeneratePair (NewKeyGenerator (zmod7Suite 0 false))).calls =
        [Call.RandomStream, Call.CreateScalar, Call.Pick]) ∧
    ((GeneratePair (NewKeyGenerator (zmod7Suite 7 false))).val =
        Outcome.panicked "unable to generate private/public keys" ∧
      (GeneratePair (NewKeyGenerator (zmod7Suite 7 false))).calls =
        [Call.RandomStream, Call.CreateScalar, Call.Pick, Call.CreatePoint, Call.Mul]) ∧
    ((GeneratePair (NewKeyGenerator (brokenMulSuite 5))).val =
        Outcome.panicked "unable to generate private/public keys" ∧
      (GeneratePair (NewKeyGenerator (brokenMulSuite 5))).calls =
        [Call.RandomStream, Call.CreateKey, Call.CreatePoint, Call.Mul]) :=
  ⟨(generate_pair_panics_on_failure (NewKeyGenerator (zmod7Suite 0 false))).1 rfl
      0 "entropy exhausted" rfl,
   (generate_pair_panics_on_failure (NewKeyGenerator (zmod7Suite 7 false))).2.1 rfl
      0 3 "zero scalar" rfl rfl,
   (generate_pair_panics_on_failure (NewKeyGenerator (brokenMulSuite 5))).2.2 _ rfl
      3 "point arithmetic failed" rfl⟩

/-- C8: `Suite()` on the generator made by `NewKeyGenerator(s)` returns `s`; each of
the four methods leaves the receiver, and so the suite it is bound to, as it was; and
after any sequence of method calls `Suite()` still returns `s`. -/
theorem suite_binding_is_stable (s : Suite S P R E) :
    (NewKeyGenerator s).Suite.val = s ∧
    (∀ (kg : keyGenerator S P R E) (b : Bytes),
      (GeneratePair kg).recv.suite = kg.suite ∧
      (PrivateKeyFromByteArray kg b).recv.suite = kg.suite ∧
      (PublicKeyFromByteArray kg b).recv.suite = kg.suite ∧
      kg.Suite.recv.suite = kg.suite) ∧
    (∀ ops : List Op, (afterOps (NewKeyGenerator s) ops).Suite.val = s) := by
  have hstep : ∀ (kg : keyGenerator S P R E) (op : Op), Op.after kg op = kg := by
    intro kg op
    cases op with
    | GeneratePair =>
      show (GeneratePair kg).recv = kg
      unfold GeneratePair
      dsimp only
      split <;> rfl
    | PrivateKeyFromByteArray b =>
      show (PrivateKeyFromByteArray kg b).recv = kg
      unfold PrivateKeyFromByteArray
      split
      · rfl
      · dsimp only
        split <;> rfl
    | PublicKeyFromByteArray b =>
      show (PublicKeyFromByteArray kg b).recv = kg
      unfold PublicKeyFromByteArray
      split
      · rfl
      · dsimp only
        split <;> rfl
    | Suite => rfl
  refine ⟨rfl, ?_, ?_⟩
  · intro kg b
    exact ⟨congrArg keyGenerator.suite (hstep kg Op.GeneratePair),
      congrArg keyGenerator.suite (hstep kg (Op.PrivateKeyFromByteArray b)),
      congrArg keyGenerator.suite (hstep kg (Op.PublicKeyFromByteArray b)), rfl⟩
  · intro ops
    have hall : ∀ (l : List Op) (kg : keyGenerator S P R E), afterOps kg l = kg := by
      intro l
      induction l with
      | nil => intro kg; rfl
      | cons op rest ih =>
        intro kg
        show afterOps (Op.after kg op) rest = kg
        rw [hstep kg op]
        exact ih kg
    rw [hall ops]
    rfl

/-- C9: on the generic path `NewKeyPair` returns a non-nil error exactly when `Pick`
returns one, or `Pick` does not and `Mul` of the picked scalar returns one; when
`Pick` fails the result is a nil pair with the error of `Pick` and `Mul` is not called;
when `Mul` fails the result is a nil pair with the error of `Mul`.  On a suite with
`CreateKey` it returns a non-nil error exactly when `Mul` of the created key returns
one, the result is then a nil pair with the error of `Mul`, and `Pick` is not called. -/
theorem new_key_pair_failure_cases (suite : Suite S P R E) :
    (suite.CreateKey = none →
      (((NewKeyPair suite).val.2 ≠ none) ↔
        ((suite.Pick suite.CreateScalar suite.RandomStream).2 ≠ none ∨
          ((suite.Pick suite.CreateScalar suite.RandomStream).2 = none ∧
            (suite.Mul suite.CreatePoint
              (suite.Pick suite.CreateScalar suite.RandomStream).1).2 ≠ none))) ∧
      (∀ (sc : S) (e : E),
        suite.Pick suite.CreateScalar suite.RandomStream = (sc, some e) →
        (NewKeyPair suite).val = (none, some (Error.collaborator e)) ∧
        Call.Mul ∉ (NewKeyPair suite).calls) ∧
      (∀ (sk : S) (q : P) (e : E),
        suite.Pick suite.CreateScalar suite.RandomStream = (sk, none) →
        suite.Mul suite.CreatePoint sk = (q, some e) →
        (NewKeyPair suite).val = (none, some (Error.collaborator e)))) ∧
    (∀ ck : R → S, suite.CreateKey = some ck →
      (((NewKeyPair suite).val.2 ≠ none) ↔
        (suite.Mul suite.CreatePoint (ck suite.RandomStream)).2 ≠ none) ∧
      (∀ (q : P) (e : E),
        suite.Mul suite.CreatePoint (ck suite.RandomStream) = (q, some e) →
        (NewKeyPair suite).val = (none, some (Error.collaborator e))) ∧
      Call.Pick ∉ (NewKeyPair suite).calls) := by
  refine ⟨?_, ?_⟩
  · intro hck
    refine ⟨?_, ?_, ?_⟩
    · rcases hpick : suite.Pick suite.CreateScalar suite.RandomStream with ⟨sk, _ | e⟩
      · have hnk := NewKeyPair_pick_ok suite hck sk hpick
        rcases hmul : suite.Mul suite.CreatePoint sk with ⟨q, _ | e⟩
        · simp only [hmul] at hnk
          simp [hnk, hmul]
        · simp only [hmul] at hnk
          simp [hnk, hmul]
      · have hnk := NewKeyPair_pick_error suite hck sk e hpick
        simp [hnk]
    · intro sc e hp
      have hnk := NewKeyPair_pick_error suite hck sc e hp
      have hcalls : (NewKeyPair suite).calls =
          [Call.RandomStream, Call.CreateScalar, Call.Pick] := by
        rw [hnk]
      refine ⟨by rw [hnk], ?_⟩
      rw [hcalls]
      decide
    · intro sk q e hp hm
      have hnk := NewKeyPair_pick_ok suite hck sk hp
      simp only [hm] at hnk
      rw [hnk]
  · intro ck hck
    have hacc := NewKeyPair_accelerated suite ck hck
    refine ⟨?_, ?_, ?_⟩
    · rcases hmul : suite.Mul suite.CreatePoint (ck suite.RandomStream) with ⟨q, _ | e⟩
      · simp only [hmul] at hacc
        simp [hacc]
      · simp only [hmul] at hacc
        simp [hacc]
    · intro q e hm
      simp only [hm] at hacc
      rw [hacc]
    · have hcalls : (NewKeyPair suite).calls =
          [Call.RandomStream, Call.CreateKey, Call.CreatePoint, Call.Mul] := by
        rw [hacc]
        split <;> rfl
      rw [hcalls]
      decide

/-- Witness for C9: `Pick` failing on an exhausted stream, `Mul` failing on the zero
scalar, and `Mul` failing after `CreateKey`. -/
theorem new_key_pair_failure_cases_witness :
    ((NewKeyPair (zmod7Suite 0 false)).val =
        (none, some (Error.collaborator "entropy exhausted")) ∧
      Call.Mul ∉ (NewKeyPair (zmod7Suite 0 false)).calls) ∧
    (NewKeyPair (zmod7Suite 7 false)).val = (none, some (Error.collaborator "zero scalar")) ∧
    (NewKeyPair (brokenMulSuite 5)).val =
      (none, some (Error.collaborator "point arithmetic failed")) :=
  ⟨((new_key_pair_failure_cases (zmod7Suite 0 false)).1 rfl).2.1 0 "entropy exhausted" rfl,
   ((new_key_pair_failure_cases (zmod7Suite 7 false)).1 rfl).2.2 0 3 "zero scalar" rfl rfl,
   ((new_key_pair_failure_cases (brokenMulSuite 5)).2 _ rfl).2.1
      3 "point arithmetic failed" rfl⟩

/-- C10: whenever `NewKeyPair` on the suite of the generator returns the pair `p` without
error, `GeneratePair` returns the private handle `{suite, p.Private}` and the public
handle `{suite, p.Public}`, both with the suite of the generator itself and the two values
as they are in `p`. -/
theorem generate_pair_wraps_pair (kg : keyGenerator S P R E) (p : Pair S P)
    (h : (NewKeyPair kg.suite).val = (some p, none)) :
    (GeneratePair kg).val =
      Outcome.returned
        ({ suite := kg.suite, sk := p.Private }, { suite := kg.suite, pk := p.Public }) := by
  unfold GeneratePair
  simp only [h]

/-- Witness for C10 on the accelerated modulo-7 suite with stream value 5. -/
theorem generate_pair_wraps_pair_witness :
    (NewKeyPair (NewKeyGenerator (zmod7Suite 5 true)).suite).val =
      (some { Public := 4, Private := 6 }, none) ∧
    (GeneratePair (NewKeyGenerator (zmod7Suite 5 true))).val =
      Outcome.returned
        ({ suite := zmod7Suite 5 true, sk := 6 }, { suite := zmod7Suite 5 true, pk := 4 }) :=
  ⟨rfl, generate_pair_wraps_pair (NewKeyGenerator (zmod7Suite 5 true))
    { Public := 4, Private := 6 } rfl⟩

end Signing
